import Mathlib

/-!
Verification development for the Gantt-chart Dash application (`src/app.py`).

The Python source is shallowly embedded:
* `Task` mirrors the dictionaries held in the task list (keys Task, Start,
  Finish, Resource, Complete).
* `save_state_to_db` / `load_state_from_db` model the PostgreSQL upsert and
  point-read; `datetime.now()` becomes an explicit `now` argument, connection
  failure an explicit `connOk` flag, and an undeserializable row a
  `Blob.malformed` value (json.loads raising inside the `try`).
* `create_gantt_figure` models the renderer as a pure function to a `Figure`
  record (the dataframe rows, the display labels and the fixed layout fields).
* `update_gantt` models the Dash callback; the result of `load_state_from_db`
  at the controller level is passed in as `dbLoad : Option (List Task)` (the
  same value is seen by both load calls of one invocation, since nothing is
  written in between), and `saved` records what, if anything, was written.
-/

namespace GanttApp

/-- A task dictionary: keys Task, Start, Finish, Resource, Complete. -/
structure Task where
  task : String
  start : String
  finish : String
  resource : String
  complete : Int
deriving DecidableEq

/-- The hardcoded `DEFAULT_TASKS` seed list of six tasks. -/
def DEFAULT_TASKS : List Task :=
  [ { task := "Project Planning", start := "2025-11-01", finish := "2025-11-05",
      resource := "Project Manager", complete := 100 },
    { task := "Requirements", start := "2025-11-04", finish := "2025-11-10",
      resource := "Business Analyst", complete := 80 },
    { task := "Design Phase", start := "2025-11-08", finish := "2025-11-15",
      resource := "Design Team", complete := 60 },
    { task := "Development Sprint 1", start := "2025-11-12", finish := "2025-11-20",
      resource := "Dev Team", complete := 40 },
    { task := "Development Sprint 2", start := "2025-11-18", finish := "2025-11-28",
      resource := "Dev Team", complete := 20 },
    { task := "Testing", start := "2025-11-25", finish := "2025-12-05",
      resource := "QA Team", complete := 0 } ]

/-- JSON values, the image of `json.dumps` / `json.loads`. -/
inductive Json where
  | str (s : String)
  | num (n : Int)
  | arr (xs : List Json)
  | obj (fields : List (String × Json))
  | null

/-- Serialization of one task dictionary (`json.dumps` on one element). -/
def encodeTask (t : Task) : Json :=
  Json.obj [("Task", Json.str t.task), ("Start", Json.str t.start),
            ("Finish", Json.str t.finish), ("Resource", Json.str t.resource),
            ("Complete", Json.num t.complete)]

/-- Serialization of the whole task list (`json.dumps(tasks)`). -/
def encodeTasks (l : List Task) : Json :=
  Json.arr (l.map encodeTask)

/-- Reading one task dictionary back out of its JSON form. -/
def decodeTask : Json → Option Task
  | Json.obj [("Task", Json.str a), ("Start", Json.str b),
              ("Finish", Json.str c), ("Resource", Json.str d),
              ("Complete", Json.num e)] =>
      some { task := a, start := b, finish := c, resource := d, complete := e }
  | _ => Option.none

/-- Reading a list of task dictionaries back out of JSON array elements. -/
def decodeTaskList : List Json → Option (List Task)
  | [] => some []
  | j :: rest =>
      match decodeTask j, decodeTaskList rest with
      | some t, some ts => some (t :: ts)
      | _, _ => Option.none

/-- Reading a task list back out of its JSON form (`json.loads` plus shape). -/
def decodeTasks : Json → Option (List Task)
  | Json.arr xs => decodeTaskList xs
  | _ => Option.none

/-- The bytes stored in the `state_data` column: either well-formed JSON or
bytes `json.loads` would reject. -/
inductive Blob where
  | json (j : Json)
  | malformed

/-- One row of the `gantt_states` table for a given (user_id, project_id). -/
structure Row where
  state_data : Blob
  created_at : Int
  updated_at : Int

/-- The `gantt_states` table, keyed by (user_id, project_id). -/
def DB : Type := (String × String) → Option Row

/-- `save_state_to_db`: `INSERT ... ON CONFLICT (user_id, project_id) DO
UPDATE SET state_data = ..., updated_at = ...` — on conflict the existing
`created_at` is kept; `datetime.now()` is the explicit `now` argument. -/
def save_state_to_db (user_id project_id : String) (tasks : List Task)
    (now : Int) (db : DB) : DB :=
  fun key =>
    if key = (user_id, project_id) then
      some { state_data := Blob.json (encodeTasks tasks),
             created_at :=
               match db (user_id, project_id) with
               | some r => r.created_at
               | Option.none => now,
             updated_at := now }
    else db key

/-- `load_state_from_db`: point-read of the row, `json.loads` of its
`state_data`; the whole body is inside `try ... except: return None`, so a
connection failure (`connOk = false`), a missing row, or malformed stored
data all yield `none`. -/
def load_state_from_db (user_id project_id : String) (connOk : Bool)
    (db : DB) : Option Json :=
  if connOk then
    match db (user_id, project_id) with
    | some r =>
        match r.state_data with
        | Blob.json j => some j
        | Blob.malformed => Option.none
    | Option.none => Option.none
  else Option.none

/-- Decimal digit character for `d < 10` (codepoint 48 + d). -/
def digitChar (d : Nat) : Char := Char.ofNat (48 + d)

/-- Fuel-based decimal rendering of a positive natural number, most
significant digit first; embeds Python string formatting of an integer. -/
def natReprAux : Nat → Nat → List Char
  | 0, _ => []
  | fuel + 1, n =>
      if n = 0 then [] else natReprAux fuel (n / 10) ++ [digitChar (n % 10)]

/-- Decimal rendering of a natural number (Python `str` of a nonnegative
integer). -/
def natReprChars (n : Nat) : List Char :=
  if n = 0 then [digitChar 0] else natReprAux (n + 1) n

/-- Decimal rendering of an integer (Python `str(int)`), with a leading
minus sign for negative values. -/
def intReprChars (i : Int) : List Char :=
  if i < 0 then '-' :: natReprChars i.natAbs else natReprChars i.toNat

/-- The display label `f"{row.get('Task')} ({row.get('Complete', 0)}%)"`
composed for each dataframe row in `create_gantt_figure`. -/
def taskDisplay (t : Task) : String :=
  t.task ++ " (" ++ String.mk (intReprChars t.complete) ++ "%)"

/-- One step of parsing a decimal numeral: reject a non-digit, otherwise
shift the accumulator and add the digit value. -/
def stepDigit (acc : Option Nat) (c : Char) : Option Nat :=
  match acc with
  | some a => if c.isDigit then some (a * 10 + (c.toNat - 48)) else Option.none
  | Option.none => Option.none

/-- Parse a non-empty all-digit character list as a natural number. -/
def parseNatChars : List Char → Option Nat
  | [] => Option.none
  | c :: rest => (c :: rest).foldl stepDigit (some 0)

/-- Parse an optional minus sign followed by a decimal numeral. -/
def parseIntChars : List Char → Option Int
  | [] => Option.none
  | c :: rest =>
      if c = '-' then (parseNatChars rest).map (fun n => -(Int.ofNat n))
      else (parseNatChars (c :: rest)).map Int.ofNat

/-- `true` on every character other than an opening parenthesis. -/
def notLParen (c : Char) : Bool := c != '('

/-- Parse the completion value back out of a display label of the shape
`"... (<int>%)"`: take the characters between the last opening parenthesis
and the trailing `%)` and read them as an integer. -/
def parseCompletionLabel (s : String) : Option Int :=
  match s.data.reverse with
  | c1 :: c2 :: rest =>
      if c1 = ')' ∧ c2 = '%' then
        match rest.dropWhile notLParen with
        | _ :: _ => parseIntChars (rest.takeWhile notLParen).reverse
        | [] => Option.none
      else Option.none
  | _ => Option.none

/-- The figure produced by `create_gantt_figure`: the dataframe rows, the
`TaskDisplay` labels and the fixed chart configuration. -/
structure Figure where
  rows : List Task
  labels : List String
  colors : List String
  indexCol : String
  showColorbar : Bool
  groupTasks : Bool
  title : String
  xaxisTitle : String
  height : Nat
  hovermode : String
deriving DecidableEq

/-- `create_gantt_figure(tasks)`: an empty (falsy) input is replaced by
`DEFAULT_TASKS`, then the dataframe, labels and fixed layout are built. -/
def create_gantt_figure (tasks : List Task) : Figure :=
  let tasks := if tasks = [] then DEFAULT_TASKS else tasks
  { rows := tasks,
    labels := tasks.map taskDisplay,
    colors := ["#FF6B6B", "#4ECDC4", "#45B7D1", "#96CEB4", "#FFEAA7", "#DFE6E9"],
    indexCol := "Resource",
    showColorbar := true,
    groupTasks := true,
    title := "📊 Project Gantt Chart",
    xaxisTitle := "Timeline",
    height := 500,
    hovermode := "closest" }

/-- The component whose Input fired the callback (`triggered_id`), or
`noTrigger` when `ctx.triggered` is empty. -/
inductive Trigger where
  | addTaskBtn
  | manualSaveBtn
  | reloadBtn
  | autoSaveInterval
  | noTrigger
deriving DecidableEq

/-- A Dash output slot: either `dash.no_update` or a new value. -/
inductive Upd (α : Type) where
  | noUpdate
  | set (v : α)
deriving DecidableEq

/-- The eight outputs of the callback: figure, gantt-store data, save-status
text, and the five input-field echoes. -/
structure CallbackOutput where
  figure : Figure
  storeData : List Task
  status : String
  taskNameOut : Upd String
  startDateOut : Upd String
  endDateOut : Upd String
  resourceOut : Upd String
  completeOut : Upd Int
deriving DecidableEq

/-- The callback outputs together with what, if anything, was written to the
database during the invocation. -/
structure CallbackResult where
  out : CallbackOutput
  saved : Option (List Task)
deriving DecidableEq

/-- `loaded if loaded else DEFAULT_TASKS.copy()`: Python truthiness, so both
`None` and the empty list fall back to the default seed list. -/
def loadOrDefault (l : Option (List Task)) : List Task :=
  match l with
  | some l => if l = [] then DEFAULT_TASKS else l
  | Option.none => DEFAULT_TASKS

/-- The list `tasks` after the load-or-default preamble of `update_gantt`:
load when there is no snapshot yet or the trigger is Reload, otherwise use
the stored snapshot, in both cases defaulting when absent or empty. -/
def initialTasks (trigger : Trigger) (stored_data : Option (List Task))
    (dbLoad : Option (List Task)) : List Task :=
  if stored_data = Option.none ∨ trigger = Trigger.reloadBtn then
    loadOrDefault dbLoad
  else
    loadOrDefault stored_data

/-- The five input-field echoes when `clear_inputs` is false: all
`dash.no_update`. -/
def noUpdates (o : Figure) (tasks : List Task) (status : String) :
    CallbackOutput :=
  { figure := o, storeData := tasks, status := status,
    taskNameOut := Upd.noUpdate, startDateOut := Upd.noUpdate,
    endDateOut := Upd.noUpdate, resourceOut := Upd.noUpdate,
    completeOut := Upd.noUpdate }

/-- `tasks = loaded if loaded else tasks` in the Reload branch: a truthy
(non-empty) load result replaces the list, otherwise the list is kept. -/
def loadOrKeep (l : Option (List Task)) (tasks : List Task) : List Task :=
  match l with
  | some l2 => if l2 = [] then tasks else l2
  | Option.none => tasks

/-- The callback `update_gantt`. Field values follow Python truthiness:
a text field is falsy iff `""` (a `None` field behaves the same), and
`complete_pct or 0` is `Option.getD 0`. `dbLoad` is the value
`load_state_from_db` returns during this invocation (both the preamble load
and the Reload-branch load see the same store, nothing is written between
them); `nowStr` is `datetime.now().strftime` of the invocation time. -/
def update_gantt (trigger : Trigger)
    (task_name start_date end_date resource : String)
    (complete_pct : Option Int) (stored_data dbLoad : Option (List Task))
    (nowStr : String) : CallbackResult :=
  let tasks := initialTasks trigger stored_data dbLoad
  if trigger = Trigger.addTaskBtn ∧ task_name ≠ "" ∧ start_date ≠ "" ∧
      end_date ≠ "" then
    let newTask : Task :=
      { task := task_name, start := start_date, finish := end_date,
        resource := if resource = "" then "Unassigned" else resource,
        complete := complete_pct.getD 0 }
    let tasks2 := tasks ++ [newTask]
    { out :=
        { figure := create_gantt_figure tasks2, storeData := tasks2,
          status := "✅ Added: \x27" ++ task_name ++ "\x27",
          taskNameOut := Upd.set "", startDateOut := Upd.set "",
          endDateOut := Upd.set "", resourceOut := Upd.set "",
          completeOut := Upd.set 0 },
      saved := some tasks2 }
  else if trigger = Trigger.manualSaveBtn then
    { out := noUpdates (create_gantt_figure tasks) tasks
        ("✅ Saved at " ++ nowStr),
      saved := some tasks }
  else if trigger = Trigger.reloadBtn then
    let tasks2 := loadOrKeep dbLoad tasks
    { out := noUpdates (create_gantt_figure tasks2) tasks2
        "✅ Reloaded from database",
      saved := Option.none }
  else if trigger = Trigger.autoSaveInterval ∧ tasks ≠ [] then
    { out := noUpdates (create_gantt_figure tasks) tasks
        ("🔄 Auto-saved at " ++ nowStr),
      saved := some tasks }
  else
    { out := noUpdates (create_gantt_figure tasks) tasks "",
      saved := Option.none }

/-! ### Helper lemmas: decimal rendering and parsing round trip -/

theorem digitChar_isDigit {d : Nat} (hd : d < 10) :
    (digitChar d).isDigit = true := by
  interval_cases d <;> decide

theorem digitChar_toNat {d : Nat} (hd : d < 10) :
    (digitChar d).toNat - 48 = d := by
  interval_cases d <;> decide

theorem stepDigit_digit (a : Nat) {d : Nat} (hd : d < 10) :
    stepDigit (some a) (digitChar d) = some (a * 10 + d) := by
  simp [stepDigit, digitChar_isDigit hd, digitChar_toNat hd]

theorem natReprAux_fold (fuel : Nat) :
    ∀ n a : Nat, n < 10 ^ fuel →
      (natReprAux fuel n).foldl stepDigit (some a)
        = some (a * 10 ^ (natReprAux fuel n).length + n) := by
  induction fuel with
  | zero =>
      intro n a h
      have hn : n = 0 := Nat.lt_one_iff.mp h
      subst hn
      simp [natReprAux]
  | succ f ih =>
      intro n a h
      by_cases h0 : n = 0
      · subst h0
        simp [natReprAux]
      · have hdiv : n / 10 < 10 ^ f := by
          have h10 : n < 10 ^ f * 10 := by
            rw [pow_succ] at h
            exact h
          exact (Nat.div_lt_iff_lt_mul (by norm_num)).mpr h10
        have hm : n % 10 < 10 := Nat.mod_lt _ (by norm_num)
        rw [show natReprAux (f + 1) n
              = natReprAux f (n / 10) ++ [digitChar (n % 10)] from by
            simp [natReprAux, h0]]
        rw [List.foldl_append, ih (n / 10) a hdiv]
        rw [show ([digitChar (n % 10)]).foldl stepDigit
              (some (a * 10 ^ (natReprAux f (n / 10)).length + n / 10))
            = stepDigit (some (a * 10 ^ (natReprAux f (n / 10)).length + n / 10))
                (digitChar (n % 10)) from rfl]
        rw [stepDigit_digit _ hm]
        have hsum : 10 * (n / 10) + n % 10 = n := Nat.div_add_mod n 10
        congr 1
        rw [List.length_append, List.length_singleton, pow_succ]
        calc (a * 10 ^ (natReprAux f (n / 10)).length + n / 10) * 10 + n % 10
            = a * (10 ^ (natReprAux f (n / 10)).length * 10)
                + (10 * (n / 10) + n % 10) := by ring
          _ = a * (10 ^ (natReprAux f (n / 10)).length * 10) + n := by rw [hsum]

theorem parseNatChars_natReprChars (n : Nat) :
    parseNatChars (natReprChars n) = some n := by
  by_cases h0 : n = 0
  · subst h0
    decide
  · have hlt : n < 10 ^ (n + 1) :=
      lt_of_lt_of_le (Nat.lt_pow_self (by norm_num) n)
        (Nat.pow_le_pow_right (by norm_num) (Nat.le_succ n))
    have hfold : (natReprChars n).foldl stepDigit (some 0) = some n := by
      rw [show natReprChars n = natReprAux (n + 1) n from by
        simp [natReprChars, h0]]
      rw [natReprAux_fold (n + 1) n 0 hlt]
      simp
    have hne : natReprChars n ≠ [] := by
      rw [show natReprChars n = natReprAux (n + 1) n from by
        simp [natReprChars, h0]]
      simp [natReprAux, h0]
    obtain ⟨c, cs, hcons⟩ := List.exists_cons_of_ne_nil hne
    rw [hcons] at hfold ⊢
    exact hfold

theorem natReprAux_digits (fuel : Nat) :
    ∀ n c, c ∈ natReprAux fuel n → c.isDigit = true := by
  induction fuel with
  | zero => intro n c hc; simp [natReprAux] at hc
  | succ f ih =>
      intro n c hc
      by_cases h0 : n = 0
      · subst h0; simp [natReprAux] at hc
      · rw [show natReprAux (f + 1) n
              = natReprAux f (n / 10) ++ [digitChar (n % 10)] from by
            simp [natReprAux, h0]] at hc
        rcases List.mem_append.mp hc with h | h
        · exact ih (n / 10) c h
        · rw [List.mem_singleton.mp h]
          exact digitChar_isDigit (Nat.mod_lt _ (by norm_num))

theorem natReprChars_digits (n : Nat) :
    ∀ c ∈ natReprChars n, c.isDigit = true := by
  intro c hc
  by_cases h0 : n = 0
  · subst h0
    simp [natReprChars] at hc
    rw [hc]
    decide
  · rw [show natReprChars n = natReprAux (n + 1) n from by
      simp [natReprChars, h0]] at hc
    exact natReprAux_digits (n + 1) n c hc

theorem isDigit_ne_lparen {c : Char} (h : c.isDigit = true) : c ≠ '(' := by
  intro hc
  subst hc
  exact absurd h (by decide)

theorem isDigit_ne_minus {c : Char} (h : c.isDigit = true) : c ≠ '-' := by
  intro hc
  subst hc
  exact absurd h (by decide)

theorem intReprChars_notLParen (i : Int) :
    ∀ c ∈ intReprChars i, notLParen c = true := by
  intro c hc
  unfold intReprChars at hc
  have hdig : c = '-' ∨ c.isDigit = true := by
    split at hc
    · rcases List.mem_cons.mp hc with h | h
      · exact Or.inl h
      · exact Or.inr (natReprChars_digits _ c h)
    · exact Or.inr (natReprChars_digits _ c hc)
  rcases hdig with h | h
  · rw [h]; decide
  · simp [notLParen, bne_iff_ne]
    exact isDigit_ne_lparen h

theorem parseIntChars_intReprChars (i : Int) :
    parseIntChars (intReprChars i) = some i := by
  by_cases hneg : i < 0
  · rw [show intReprChars i = '-' :: natReprChars i.natAbs from by
      simp [intReprChars, hneg]]
    rw [show parseIntChars ('-' :: natReprChars i.natAbs)
          = (parseNatChars (natReprChars i.natAbs)).map (fun n => -(Int.ofNat n))
        from rfl]
    rw [parseNatChars_natReprChars]
    show some (-(Int.ofNat i.natAbs)) = some i
    congr 1
    rw [Int.ofNat_eq_natCast]
    omega
  · rw [show intReprChars i = natReprChars i.toNat from by
      simp [intReprChars, hneg]]
    have hne : natReprChars i.toNat ≠ [] := by
      unfold natReprChars
      split
      · simp
      · rename_i h0
        simp [natReprAux, h0]
    obtain ⟨c, cs, hcons⟩ := List.exists_cons_of_ne_nil hne
    have hcd : c.isDigit = true := by
      apply natReprChars_digits i.toNat
      rw [hcons]
      exact List.mem_cons_self c cs
    rw [hcons]
    rw [show parseIntChars (c :: cs)
          = if c = '-' then (parseNatChars cs).map (fun n => -(Int.ofNat n))
            else (parseNatChars (c :: cs)).map Int.ofNat from rfl]
    rw [if_neg (isDigit_ne_minus hcd)]
    rw [← hcons, parseNatChars_natReprChars]
    show some (Int.ofNat i.toNat) = some i
    congr 1
    rw [Int.ofNat_eq_natCast]
    omega

theorem takeWhile_append_all {α : Type} (p : α → Bool) (l₁ l₂ : List α)
    (h : ∀ a ∈ l₁, p a = true) :
    (l₁ ++ l₂).takeWhile p = l₁ ++ l₂.takeWhile p := by
  induction l₁ with
  | nil => simp
  | cons x xs ih =>
      have hx : p x = true := h x (List.mem_cons_self x xs)
      simp only [List.cons_append, List.takeWhile_cons, hx, if_true]
      rw [ih (fun a ha => h a (List.mem_cons_of_mem x ha))]

theorem dropWhile_append_all {α : Type} (p : α → Bool) (l₁ l₂ : List α)
    (h : ∀ a ∈ l₁, p a = true) :
    (l₁ ++ l₂).dropWhile p = l₂.dropWhile p := by
  induction l₁ with
  | nil => simp
  | cons x xs ih =>
      have hx : p x = true := h x (List.mem_cons_self x xs)
      simp only [List.cons_append, List.dropWhile_cons, hx, if_true]
      exact ih (fun a ha => h a (List.mem_cons_of_mem x ha))

theorem parse_taskDisplay (t : Task) :
    parseCompletionLabel (taskDisplay t) = some t.complete := by
  have hdata : (taskDisplay t).data
      = t.task.data ++ ([' ', '('] ++ (intReprChars t.complete ++ ['%', ')'])) := by
    simp [taskDisplay, String.data_append]
  have hrev : (taskDisplay t).data.reverse
      = ')' :: '%' :: ((intReprChars t.complete).reverse
          ++ ('(' :: ' ' :: t.task.data.reverse)) := by
    rw [hdata]
    simp
  have hmem : ∀ c ∈ (intReprChars t.complete).reverse, notLParen c = true := by
    intro c hc
    exact intReprChars_notLParen t.complete c (List.mem_reverse.mp hc)
  have htake : ((intReprChars t.complete).reverse
        ++ ('(' :: ' ' :: t.task.data.reverse)).takeWhile notLParen
      = (intReprChars t.complete).reverse := by
    rw [takeWhile_append_all notLParen _ _ hmem]
    simp [List.takeWhile_cons, notLParen]
  have hdrop : ((intReprChars t.complete).reverse
        ++ ('(' :: ' ' :: t.task.data.reverse)).dropWhile notLParen
      = '(' :: ' ' :: t.task.data.reverse := by
    rw [dropWhile_append_all notLParen _ _ hmem]
    simp [List.dropWhile_cons, notLParen]
  unfold parseCompletionLabel
  rw [hrev]
  simp only [hdrop, htake, and_self, if_true]
  rw [List.reverse_reverse]
  exact parseIntChars_intReprChars t.complete

/-! ### Helper lemmas: serialization and store -/

theorem decodeTask_encodeTask (t : Task) : decodeTask (encodeTask t) = some t :=
  rfl

theorem decodeTaskList_map_encodeTask (l : List Task) :
    decodeTaskList (l.map encodeTask) = some l := by
  induction l with
  | nil => rfl
  | cons t ts ih =>
      show decodeTaskList (encodeTask t :: ts.map encodeTask) = some (t :: ts)
      rw [show decodeTaskList (encodeTask t :: ts.map encodeTask)
            = match decodeTask (encodeTask t), decodeTaskList (ts.map encodeTask) with
              | some t2, some ts2 => some (t2 :: ts2)
              | _, _ => Option.none from rfl]
      rw [decodeTask_encodeTask, ih]

theorem decodeTasks_encodeTasks (l : List Task) :
    decodeTasks (encodeTasks l) = some l := by
  show decodeTaskList (l.map encodeTask) = some l
  exact decodeTaskList_map_encodeTask l

/-! ### Helper lemmas: controller -/

theorem DEFAULT_TASKS_ne_nil : DEFAULT_TASKS ≠ [] := by decide

theorem loadOrDefault_ne_nil (l : Option (List Task)) : loadOrDefault l ≠ [] := by
  unfold loadOrDefault
  match l with
  | some l2 =>
      by_cases h : l2 = [] <;> simp [h, DEFAULT_TASKS_ne_nil]
  | Option.none => simp [DEFAULT_TASKS_ne_nil]

theorem initialTasks_ne_nil (trigger : Trigger) (sd dl : Option (List Task)) :
    initialTasks trigger sd dl ≠ [] := by
  unfold initialTasks
  split <;> exact loadOrDefault_ne_nil _

theorem loadOrKeep_ne_nil (dl : Option (List Task)) (tasks : List Task)
    (h : tasks ≠ []) : loadOrKeep dl tasks ≠ [] := by
  unfold loadOrKeep
  match dl with
  | some l2 => by_cases h2 : l2 = [] <;> simp [h2, h]
  | Option.none => exact h

theorem create_gantt_figure_rows {tasks : List Task} (h : tasks ≠ []) :
    (create_gantt_figure tasks).rows = tasks := by
  simp [create_gantt_figure, h]

theorem initialTasks_none (trigger : Trigger) (dl : Option (List Task)) :
    initialTasks trigger Option.none dl = loadOrDefault dl := by
  unfold initialTasks
  rw [if_pos (Or.inl rfl)]

theorem initialTasks_some_stored (trigger : Trigger) (dl : Option (List Task))
    (M : List Task) (hM : M ≠ []) (ht : trigger ≠ Trigger.reloadBtn) :
    initialTasks trigger (some M) dl = M := by
  unfold initialTasks
  rw [if_neg]
  · simp [loadOrDefault, hM]
  · rintro (h | h)
    · exact Option.noConfusion h
    · exact ht h

theorem initialTasks_congr {t1 t2 : Trigger} (h1 : t1 ≠ Trigger.reloadBtn)
    (h2 : t2 ≠ Trigger.reloadBtn) (sd dl : Option (List Task)) :
    initialTasks t1 sd dl = initialTasks t2 sd dl := by
  unfold initialTasks
  cases sd <;> simp [h1, h2]

theorem initialTasks_some_loadOrDefault (trigger : Trigger)
    (dl : Option (List Task)) :
    initialTasks trigger (some (loadOrDefault dl)) dl = loadOrDefault dl := by
  unfold initialTasks
  split
  · rfl
  · show loadOrDefault (some (loadOrDefault dl)) = loadOrDefault dl
    rw [show loadOrDefault (some (loadOrDefault dl))
          = if loadOrDefault dl = [] then DEFAULT_TASKS else loadOrDefault dl
        from rfl]
    rw [if_neg (loadOrDefault_ne_nil dl)]

/-! ### Claims -/

/-- C1 counterexample: with the store absent, a Reload invocation does not
leave the snapshot at its pre-invocation value M — at the concrete one-task
snapshot M below, the returned snapshot differs from M (it is the default
seed list, as the amended claim states). -/
theorem reload_absent_not_preserving :
    (update_gantt Trigger.reloadBtn "" "" "" "" Option.none
        (some [{ task := "X", start := "2025-01-01", finish := "2025-01-02",
                 resource := "Eng", complete := 50 }]) Option.none
        "12:00:00").out.storeData
      ≠ [{ task := "X", start := "2025-01-01", finish := "2025-01-02",
           resource := "Eng", complete := 50 }] := by
  decide

/-- C1 (amended): for every invocation triggered by Reload in which the store
load returns absent, the returned snapshot is the fixed default seed list
`DEFAULT_TASKS` — the pre-invocation snapshot is discarded by the
load-or-default preamble — nothing is saved, and the status reports the
reload. -/
theorem reload_absent_yields_default (n s e rs : String) (cp : Option Int)
    (sd : Option (List Task)) (nowStr : String) :
    (update_gantt Trigger.reloadBtn n s e rs cp sd Option.none
        nowStr).out.storeData = DEFAULT_TASKS ∧
    (update_gantt Trigger.reloadBtn n s e rs cp sd Option.none
        nowStr).saved = Option.none ∧
    (update_gantt Trigger.reloadBtn n s e rs cp sd Option.none
        nowStr).out.status = "✅ Reloaded from database" := by
  simp [update_gantt, initialTasks, loadOrDefault, loadOrKeep, noUpdates]

/-- C4: `save_state_to_db` is idempotent under retry — for every
(userId, projectId, taskList) and invocation time, saving twice with the
same input leaves the same table as saving once (the upsert overwrites
`state_data` and `updated_at` and keeps `created_at`). -/
theorem save_idempotent (u p : String) (tasks : List Task) (now : Int)
    (db : DB) :
    save_state_to_db u p tasks now (save_state_to_db u p tasks now db)
      = save_state_to_db u p tasks now db := by
  funext key
  by_cases hk : key = (u, p)
  · cases hdb : db (u, p) <;> simp [save_state_to_db, hk, hdb]
  · simp [save_state_to_db, hk]

/-- C5: saving and then loading the same (userId, projectId) with no
intervening write returns exactly the serialized list that was saved, and it
deserializes field-wise to the saved task list. -/
theorem save_load_roundtrip (u p : String) (tasks : List Task) (now : Int)
    (db : DB) :
    load_state_from_db u p true (save_state_to_db u p tasks now db)
        = some (encodeTasks tasks) ∧
    (load_state_from_db u p true (save_state_to_db u p tasks now db)).bind
        decodeTasks = some tasks := by
  have hload : load_state_from_db u p true (save_state_to_db u p tasks now db)
      = some (encodeTasks tasks) := by
    simp [load_state_from_db, save_state_to_db]
  refine ⟨hload, ?_⟩
  rw [hload]
  show decodeTasks (encodeTasks tasks) = some tasks
  exact decodeTasks_encodeTasks tasks

/-- C6: `load_state_from_db` never propagates an error — a connection
failure, a missing row, or malformed stored data all yield `none` — and the
caller (the callback with no snapshot and an absent load result) falls back
to the default seed list. -/
theorem load_fail_soft (u p : String) (db : DB) :
    load_state_from_db u p false db = Option.none ∧
    (db (u, p) = Option.none → load_state_from_db u p true db = Option.none) ∧
    (∀ r, db (u, p) = some r → r.state_data = Blob.malformed →
        load_state_from_db u p true db = Option.none) ∧
    (∀ nowStr, (update_gantt Trigger.noTrigger "" "" "" "" Option.none
        Option.none Option.none nowStr).out.storeData = DEFAULT_TASKS) := by
  refine ⟨rfl, ?_, ?_, ?_⟩
  · intro h
    simp [load_state_from_db, h]
  · intro r hr hm
    simp [load_state_from_db, hr, hm]
  · intro nowStr
    rfl

/-- C6 witness: a load against an empty table with a working connection
returns `none`. -/
theorem load_fail_soft_witness :
    load_state_from_db "default_user" "my_project" true (fun _ => Option.none)
      = Option.none :=
  (load_fail_soft "default_user" "my_project" (fun _ => Option.none)).2.1 rfl

/-- C7: rendering the empty task list yields exactly the same figure as
rendering the default seed list, and the result is non-degenerate (render
does not fail on empty input: it substitutes the seed list). -/
theorem render_empty_eq_default :
    create_gantt_figure [] = create_gantt_figure DEFAULT_TASKS ∧
    (create_gantt_figure []).rows ≠ [] := by
  constructor
  · rfl
  · decide

/-- C2: an AddTask invocation with name, start and finish all non-empty
appends exactly one task — the supplied one verbatim, with resource
defaulting to "Unassigned" when absent and completion defaulting to 0 when
absent — to the end of the working list, and immediately saves the resulting
list to the store. -/
theorem addTask_appends_and_saves (n s e rs : String) (cp : Option Int)
    (sd dl : Option (List Task)) (nowStr : String)
    (hn : n ≠ "") (hs : s ≠ "") (he : e ≠ "") :
    (update_gantt Trigger.addTaskBtn n s e rs cp sd dl nowStr).out.storeData
        = initialTasks Trigger.addTaskBtn sd dl ++
          [{ task := n, start := s, finish := e,
             resource := if rs = "" then "Unassigned" else rs,
             complete := cp.getD 0 }] ∧
    (update_gantt Trigger.addTaskBtn n s e rs cp sd dl nowStr).out.storeData.length
        = (initialTasks Trigger.addTaskBtn sd dl).length + 1 ∧
    (update_gantt Trigger.addTaskBtn n s e rs cp sd dl nowStr).out.storeData.getLast?
        = some { task := n, start := s, finish := e,
                 resource := if rs = "" then "Unassigned" else rs,
                 complete := cp.getD 0 } ∧
    (update_gantt Trigger.addTaskBtn n s e rs cp sd dl nowStr).saved
        = some ((update_gantt Trigger.addTaskBtn n s e rs cp sd dl
            nowStr).out.storeData) := by
  simp only [update_gantt]
  rw [if_pos (show True ∧ n ≠ "" ∧ s ≠ "" ∧ e ≠ "" from ⟨trivial, hn, hs, he⟩)]
  refine ⟨rfl, ?_, ?_, rfl⟩
  · simp
  · exact List.getLast?_concat _

/-- C2 witness: adding the concrete task T1 to a snapshot holding the
default seed list appends it at the end and saves the seven-task list. -/
theorem addTask_appends_and_saves_witness :
    (update_gantt Trigger.addTaskBtn "T1" "2025-01-01" "2025-01-05" "Eng"
        (some 50) (some DEFAULT_TASKS) Option.none "t").out.storeData
      = initialTasks Trigger.addTaskBtn (some DEFAULT_TASKS) Option.none ++
        [{ task := "T1", start := "2025-01-01", finish := "2025-01-05",
           resource := if "Eng" = "" then "Unassigned" else "Eng",
           complete := (some (50 : Int)).getD 0 }] :=
  (addTask_appends_and_saves "T1" "2025-01-01" "2025-01-05" "Eng" (some 50)
    (some DEFAULT_TASKS) Option.none "t" (by decide) (by decide) (by decide)).1

/-- C3: an AddTask invocation with an empty name, start or finish is a
no-op: it is indistinguishable from an invocation with no trigger, nothing
is saved, the status message is empty, all five input-field outputs are left
at `dash.no_update` (their previous values), and the working list (the
stored snapshot, when present and non-empty) is unchanged. -/
theorem addTask_invalid_noop (n s e rs : String) (cp : Option Int)
    (sd dl : Option (List Task)) (nowStr : String)
    (h : n = "" ∨ s = "" ∨ e = "") :
    update_gantt Trigger.addTaskBtn n s e rs cp sd dl nowStr
        = update_gantt Trigger.noTrigger n s e rs cp sd dl nowStr ∧
    (update_gantt Trigger.addTaskBtn n s e rs cp sd dl nowStr).saved
        = Option.none ∧
    (update_gantt Trigger.addTaskBtn n s e rs cp sd dl nowStr).out.status = "" ∧
    (update_gantt Trigger.addTaskBtn n s e rs cp sd dl nowStr).out.taskNameOut
        = Upd.noUpdate ∧
    (update_gantt Trigger.addTaskBtn n s e rs cp sd dl nowStr).out.startDateOut
        = Upd.noUpdate ∧
    (update_gantt Trigger.addTaskBtn n s e rs cp sd dl nowStr).out.endDateOut
        = Upd.noUpdate ∧
    (update_gantt Trigger.addTaskBtn n s e rs cp sd dl nowStr).out.resourceOut
        = Upd.noUpdate ∧
    (update_gantt Trigger.addTaskBtn n s e rs cp sd dl nowStr).out.completeOut
        = Upd.noUpdate ∧
    (∀ M, sd = some M → M ≠ [] →
        (update_gantt Trigger.addTaskBtn n s e rs cp sd dl nowStr).out.storeData
          = M) := by
  have hc : ¬(n ≠ "" ∧ s ≠ "" ∧ e ≠ "") := by
    rintro ⟨hn, hs, he⟩
    rcases h with h | h | h
    · exact hn h
    · exact hs h
    · exact he h
  have hinit : initialTasks Trigger.addTaskBtn sd dl
      = initialTasks Trigger.noTrigger sd dl :=
    initialTasks_congr (by simp) (by simp) sd dl
  refine ⟨?_, ?_, ?_, ?_, ?_, ?_, ?_, ?_, ?_⟩
  · simp [update_gantt, hc, hinit, noUpdates]
  · simp [update_gantt, hc, noUpdates]
  · simp [update_gantt, hc, noUpdates]
  · simp [update_gantt, hc, noUpdates]
  · simp [update_gantt, hc, noUpdates]
  · simp [update_gantt, hc, noUpdates]
  · simp [update_gantt, hc, noUpdates]
  · simp [update_gantt, hc, noUpdates]
  · intro M hM hMne
    subst hM
    simp [update_gantt, hc, noUpdates,
      initialTasks_some_stored Trigger.addTaskBtn dl M hMne (by simp)]

/-- C3 witness: an AddTask click with an empty name against a one-task
snapshot changes nothing. -/
theorem addTask_invalid_noop_witness :
    (update_gantt Trigger.addTaskBtn "" "2025-01-01" "2025-01-05" "Eng"
        (some 50)
        (some [{ task := "X", start := "a", finish := "b", resource := "R",
                 complete := 1 }]) Option.none "t").saved = Option.none ∧
    (update_gantt Trigger.addTaskBtn "" "2025-01-01" "2025-01-05" "Eng"
        (some 50)
        (some [{ task := "X", start := "a", finish := "b", resource := "R",
                 complete := 1 }]) Option.none "t").out.storeData
      = [{ task := "X", start := "a", finish := "b", resource := "R",
           complete := 1 }] := by
  have h := addTask_invalid_noop "" "2025-01-01" "2025-01-05" "Eng" (some 50)
    (some [{ task := "X", start := "a", finish := "b", resource := "R",
             complete := 1 }]) Option.none "t" (Or.inl rfl)
  exact ⟨h.2.1, h.2.2.2.2.2.2.2.2 _ rfl (by decide)⟩

/-- C8 counterexample: for the empty task list the claim fails — the labels
rendered for `[]` are those of the substituted default seed list, so parsing
them back does not recover the (empty) list of completion values of the
input. -/
theorem label_roundtrip_fails_on_empty :
    (create_gantt_figure []).labels.map parseCompletionLabel
      ≠ ([] : List Task).map (fun t => some t.complete) := by
  decide

/-- C8 (amended): for every non-empty task list T, each display label in the
rendered figure is composed as name followed by the completion percentage in
parentheses, and parsing the completion values back out of the displayed
labels recovers the original completion values of T. -/
theorem label_roundtrip_nonempty (T : List Task) (hT : T ≠ []) :
    (create_gantt_figure T).labels = T.map taskDisplay ∧
    (create_gantt_figure T).labels.map parseCompletionLabel
      = T.map (fun t => some t.complete) := by
  have hlab : (create_gantt_figure T).labels = T.map taskDisplay := by
    simp [create_gantt_figure, hT]
  refine ⟨hlab, ?_⟩
  rw [hlab, List.map_map]
  exact List.map_congr_left (fun t _ => parse_taskDisplay t)

/-- C8 witness: the labels of the rendered default seed list parse back to
its completion values. -/
theorem label_roundtrip_nonempty_witness :
    (create_gantt_figure DEFAULT_TASKS).labels.map parseCompletionLabel
      = DEFAULT_TASKS.map (fun t => some t.complete) :=
  (label_roundtrip_nonempty DEFAULT_TASKS (by decide)).2

/-- C9: on a first invocation (no prior snapshot) the controller behaves, for
every trigger, exactly as if the snapshot were the freshly loaded-or-default
list — the load-or-default step happens before the triggered action — and in
particular a first-invocation AddTask appends to the freshly
loaded-or-default list. -/
theorem first_invocation_load_first (trig : Trigger) (n s e rs : String)
    (cp : Option Int) (dl : Option (List Task)) (nowStr : String) :
    update_gantt trig n s e rs cp Option.none dl nowStr
        = update_gantt trig n s e rs cp (some (loadOrDefault dl)) dl nowStr ∧
    (trig = Trigger.addTaskBtn → n ≠ "" → s ≠ "" → e ≠ "" →
      (update_gantt trig n s e rs cp Option.none dl nowStr).out.storeData
        = loadOrDefault dl ++
          [{ task := n, start := s, finish := e,
             resource := if rs = "" then "Unassigned" else rs,
             complete := cp.getD 0 }]) := by
  constructor
  · simp only [update_gantt, initialTasks_none, initialTasks_some_loadOrDefault]
  · intro ht hn hs he
    subst ht
    simp only [update_gantt]
    rw [if_pos (show True ∧ n ≠ "" ∧ s ≠ "" ∧ e ≠ "" from ⟨trivial, hn, hs, he⟩),
      initialTasks_none]

/-- C9 witness: a first-invocation AddTask with an absent store appends the
new task to the default seed list. -/
theorem first_invocation_load_first_witness :
    (update_gantt Trigger.addTaskBtn "T1" "2025-01-01" "2025-01-05" "Eng"
        (some 50) Option.none Option.none "t").out.storeData
      = loadOrDefault Option.none ++
        [{ task := "T1", start := "2025-01-01", finish := "2025-01-05",
           resource := if "Eng" = "" then "Unassigned" else "Eng",
           complete := (some (50 : Int)).getD 0 }] :=
  (first_invocation_load_first Trigger.addTaskBtn "T1" "2025-01-01"
    "2025-01-05" "Eng" (some 50) Option.none "t").2 rfl (by decide) (by decide)
    (by decide)

/-- C10 (implicit invariant): on every invocation the returned snapshot is
non-empty, the rendered figure shows exactly that snapshot, and anything
written to the store is non-empty — an absent or empty loaded/stored list is
replaced by the fixed six-task default before the trigger action applies. -/
theorem snapshot_never_empty (trig : Trigger) (n s e rs : String)
    (cp : Option Int) (sd dl : Option (List Task)) (nowStr : String) :
    (update_gantt trig n s e rs cp sd dl nowStr).out.storeData ≠ [] ∧
    (update_gantt trig n s e rs cp sd dl nowStr).out.figure.rows
        = (update_gantt trig n s e rs cp sd dl nowStr).out.storeData ∧
    (∀ l, (update_gantt trig n s e rs cp sd dl nowStr).saved = some l →
        l ≠ []) := by
  have hbase := initialTasks_ne_nil trig sd dl
  have hkeep : loadOrKeep dl (initialTasks trig sd dl) ≠ [] :=
    loadOrKeep_ne_nil dl _ hbase
  simp only [update_gantt]
  generalize (if rs = "" then "Unassigned" else rs) = rsv
  split_ifs with h1 h2 h3 h4
  · have hne : initialTasks trig sd dl ++
        [{ task := n, start := s, finish := e, resource := rsv,
           complete := cp.getD 0 }] ≠ [] := by simp
    refine ⟨hne, create_gantt_figure_rows hne, ?_⟩
    intro l hl
    rw [← Option.some_inj.mp hl]
    exact hne
  · refine ⟨hbase, create_gantt_figure_rows hbase, ?_⟩
    intro l hl
    rw [← Option.some_inj.mp hl]
    exact hbase
  · refine ⟨hkeep, create_gantt_figure_rows hkeep, ?_⟩
    intro l hl
    exact hl.elim
  · refine ⟨hbase, create_gantt_figure_rows hbase, ?_⟩
    intro l hl
    rw [← Option.some_inj.mp hl]
    exact hbase
  · refine ⟨hbase, create_gantt_figure_rows hbase, ?_⟩
    intro l hl
    exact hl.elim

/-- C10 witness: a manual save against an absent store and empty snapshot
writes the (non-empty) default seed list. -/
theorem snapshot_never_empty_witness :
    (update_gantt Trigger.manualSaveBtn "" "" "" "" Option.none Option.none
        Option.none "t").out.storeData ≠ [] ∧
    DEFAULT_TASKS ≠ [] :=
  ⟨(snapshot_never_empty Trigger.manualSaveBtn "" "" "" "" Option.none
      Option.none Option.none "t").1,
   (snapshot_never_empty Trigger.manualSaveBtn "" "" "" "" Option.none
      Option.none Option.none "t").2.2 DEFAULT_TASKS rfl⟩

end GanttApp
